import Mathlib

/-!
Verification development for the ohno Task State & Dependency Engine
(`ohno-mcp/src/ohno_mcp/db.py`).

The SQLite-backed store is embedded shallowly: a `Store` holds the rows of
the `tasks`, `stories`, `epics`, `task_activity`, `task_files` and
`task_dependencies` tables as lists, and each engine operation is a pure
function from a store (plus the wall-clock timestamp the Python code reads
via `datetime.now().isoformat()`, passed here as an explicit `now` argument)
to a result paired with the successor store.  A failed operation (a Python
`sqlite3.Error` caught by the source, which rolls the transaction back)
returns the original store unchanged.

The store is assumed provisioned (`_ensure_tables` has run, so all extended
columns exist); nullable SQL columns are `Option`-valued fields.
-/

namespace Ohno

/-! ### SHA-256 (used by the content-based id generators)

`hashlib.sha256(content.encode()).hexdigest()` is modelled by an executable
SHA-256 over the UTF-8 bytes of the string, with 32-bit words represented as
`Nat` reduced modulo `2 ^ 32`. -/

/-- Reduce a natural number to a 32-bit word. -/
def w32 (n : Nat) : Nat := n % 4294967296

/-- Right rotation of a 32-bit word by `k` bits. -/
def rotr (k n : Nat) : Nat := w32 ((n >>> k) ||| (n <<< (32 - k)))

/-- SHA-256 big sigma 0. -/
def bsig0 (x : Nat) : Nat := (rotr 2 x) ^^^ (rotr 13 x) ^^^ (rotr 22 x)

/-- SHA-256 big sigma 1. -/
def bsig1 (x : Nat) : Nat := (rotr 6 x) ^^^ (rotr 11 x) ^^^ (rotr 25 x)

/-- SHA-256 small sigma 0. -/
def ssig0 (x : Nat) : Nat := (rotr 7 x) ^^^ (rotr 18 x) ^^^ (x >>> 3)

/-- SHA-256 small sigma 1. -/
def ssig1 (x : Nat) : Nat := (rotr 17 x) ^^^ (rotr 19 x) ^^^ (x >>> 10)

/-- SHA-256 choice function (`¬x` is complement in 32 bits). -/
def chf (x y z : Nat) : Nat := (x &&& y) ^^^ ((x ^^^ 4294967295) &&& z)

/-- SHA-256 majority function. -/
def majf (x y z : Nat) : Nat := (x &&& y) ^^^ (x &&& z) ^^^ (y &&& z)

/-- The 64 SHA-256 round constants. -/
def K256 : List Nat :=
  [1116352408, 1899447441, 3049323471, 3921009573, 961987163,
   1508970993, 2453635748, 2870763221, 3624381080, 310598401,
   607225278, 1426881987, 1925078388, 2162078206, 2614888103,
   3248222580, 3835390401, 4022224774, 264347078, 604807628,
   770255983, 1249150122, 1555081692, 1996064986, 2554220882,
   2821834349, 2952996808, 3210313671, 3336571891, 3584528711,
   113926993, 338241895, 666307205, 773529912, 1294757372,
   1396182291, 1695183700, 1986661051, 2177026350, 2456956037,
   2730485921, 2820302411, 3259730800, 3345764771, 3516065817,
   3600352804, 4094571909, 275423344, 430227734, 506948616,
   659060556, 883997877, 958139571, 1322822218, 1537002063,
   1747873779, 1955562222, 2024104815, 2227730452, 2361852424,
   2428436474, 2756734187, 3204031479, 3329325298]

/-- UTF-8 encoding of a single character as a byte list. -/
def utf8Bytes (c : Char) : List Nat :=
  let n := c.toNat
  if n < 128 then [n]
  else if n < 2048 then [192 + n / 64, 128 + n % 64]
  else if n < 65536 then [224 + n / 4096, 128 + (n / 64) % 64, 128 + n % 64]
  else [240 + n / 262144, 128 + (n / 4096) % 64, 128 + (n / 64) % 64, 128 + n % 64]

/-- UTF-8 bytes of a string (Python `str.encode()`). -/
def strBytes (s : String) : List Nat := (s.data.map utf8Bytes).flatten

/-- The 8-byte big-endian encoding of the message bit length. -/
def lenBytes (bitLen : Nat) : List Nat :=
  [bitLen / 72057594037927936 % 256, bitLen / 281474976710656 % 256,
   bitLen / 1099511627776 % 256, bitLen / 4294967296 % 256,
   bitLen / 16777216 % 256, bitLen / 65536 % 256, bitLen / 256 % 256, bitLen % 256]

/-- SHA-256 message padding: append `0x80`, zeros to 56 mod 64, then the bit length. -/
def padMessage (msg : List Nat) : List Nat :=
  let padZeros := (119 - msg.length % 64) % 64
  msg ++ 128 :: List.replicate padZeros 0 ++ lenBytes (8 * msg.length)

/-- Group bytes 4 at a time into big-endian 32-bit words. -/
def bytesToWords : List Nat → List Nat
  | b0 :: b1 :: b2 :: b3 :: rest =>
      (b0 * 16777216 + b1 * 65536 + b2 * 256 + b3) :: bytesToWords rest
  | _ => []

/-- Split a byte list into 64-byte blocks (fuel-guarded structural recursion). -/
def chunk64 : Nat → List Nat → List (List Nat)
  | 0, _ => []
  | _, [] => []
  | Nat.succ fuel, l => l.take 64 :: chunk64 fuel (l.drop 64)

/-- Extend a 16-word message schedule by one word. -/
def scheduleStep (ws : List Nat) : List Nat :=
  let i := ws.length
  ws ++ [w32 (ssig1 (ws.getD (i - 2) 0) + ws.getD (i - 7) 0 +
              ssig0 (ws.getD (i - 15) 0) + ws.getD (i - 16) 0)]

/-- Extend the message schedule `n` times (to 64 words from 16). -/
def extendW : Nat → List Nat → List Nat
  | 0, ws => ws
  | Nat.succ n, ws => extendW n (scheduleStep ws)

/-- The eight 32-bit working variables of the SHA-256 compression function. -/
structure SHState where
  a : Nat
  b : Nat
  c : Nat
  d : Nat
  e : Nat
  f : Nat
  g : Nat
  h : Nat

/-- Initial SHA-256 hash state. -/
def initH : SHState :=
  ⟨1779033703, 3144134277, 1013904242, 2773480762, 1359893119, 2600822924, 528734635, 1541459225⟩

/-- One SHA-256 round with the precomputed `k + w` value. -/
def shaRound (st : SHState) (kw : Nat) : SHState :=
  let t1 := w32 (st.h + bsig1 st.e + chf st.e st.f st.g + kw)
  let t2 := w32 (bsig0 st.a + majf st.a st.b st.c)
  ⟨w32 (t1 + t2), st.a, st.b, st.c, w32 (st.d + t1), st.e, st.f, st.g⟩

/-- Process one 64-byte block. -/
def processBlock (hs : SHState) (block : List Nat) : SHState :=
  let ws := extendW 48 (bytesToWords block)
  let kws := (K256.zip ws).map (fun p => w32 (p.1 + p.2))
  let fin := kws.foldl shaRound hs
  ⟨w32 (hs.a + fin.a), w32 (hs.b + fin.b), w32 (hs.c + fin.c), w32 (hs.d + fin.d),
   w32 (hs.e + fin.e), w32 (hs.f + fin.f), w32 (hs.g + fin.g), w32 (hs.h + fin.h)⟩

/-- Hexadecimal digit character. -/
def hexChar (n : Nat) : Char := if n < 10 then Char.ofNat (48 + n) else Char.ofNat (87 + n)

/-- Lowercase hex rendering of a 32-bit word (8 characters). -/
def wordHex (w : Nat) : List Char :=
  [hexChar (w / 268435456 % 16), hexChar (w / 16777216 % 16), hexChar (w / 1048576 % 16),
   hexChar (w / 65536 % 16), hexChar (w / 4096 % 16), hexChar (w / 256 % 16),
   hexChar (w / 16 % 16), hexChar (w % 16)]

/-- The eight state words in order. -/
def finList (st : SHState) : List Nat := [st.a, st.b, st.c, st.d, st.e, st.f, st.g, st.h]

/-- Lowercase hex digest of the SHA-256 of the UTF-8 bytes of `s`
(`hashlib.sha256(s.encode()).hexdigest()`). -/
def sha256hex (s : String) : String :=
  let msg := padMessage (strBytes s)
  let blocks := chunk64 msg.length msg
  let fin := blocks.foldl processBlock initH
  String.mk (((finList fin).map wordHex).flatten)

/-! ### Identity generators (`db.py` lines 21-45) -/

/-- Python string truthiness fallback: `v or default` on an optional string. -/
def pyOrStr (v : Option String) (default : String) : String :=
  match v with
  | some s => if s = "" then default else s
  | none => default

/-- Python truthiness of an optional string (`if v:`). -/
def pyTruthy (v : Option String) : Bool :=
  match v with
  | some s => !(s == "")
  | none => false

/-- The content string hashed by `generate_task_id`:
`f"{title}|{story_id or ''}|{timestamp}"`. -/
def taskIdContent (title : String) (story_id : Option String) (timestamp : String) : String :=
  title ++ "|" ++ pyOrStr story_id "" ++ "|" ++ timestamp

/-- Generate a content-based task ID (`generate_task_id`). -/
def generate_task_id (title : String) (story_id : Option String) (timestamp : String) : String :=
  "task-" ++ (sha256hex (taskIdContent title story_id timestamp)).take 8

/-- Generate a content-based activity ID (`generate_activity_id`). -/
def generate_activity_id (task_id : String) (activity_type : String) (timestamp : String) : String :=
  "act-" ++ (sha256hex (task_id ++ "|" ++ activity_type ++ "|" ++ timestamp)).take 8

/-- Generate a content-based dependency ID (`generate_dependency_id`); note the
content deliberately omits a timestamp. -/
def generate_dependency_id (task_id : String) (depends_on_task_id : String) : String :=
  "dep-" ++ (sha256hex (task_id ++ "|" ++ depends_on_task_id)).take 8

/-! ### Data model

Rows of the six tables the engine touches.  `tasks`, `stories` and `epics`
are owned by the external producer; `task_activity`, `task_files` and
`task_dependencies` are created by the schema provisioner.  Nullable columns
are `Option`-valued; `status` is written by every engine code path and is
modelled as a plain `String`.  SQL `REAL` columns (hours) are modelled as
`Rat` (the engine stores and reports them without arithmetic). -/

/-- A row of the `tasks` table with all extended columns provisioned. -/
structure TaskRow where
  id : String
  story_id : Option String := none
  title : String := ""
  status : String := "todo"
  task_type : Option String := none
  estimate_hours : Option Rat := none
  description : Option String := none
  context_summary : Option String := none
  working_files : Option String := none
  blockers : Option String := none
  handoff_notes : Option String := none
  progress_percent : Option Int := none
  actual_hours : Option Rat := none
  created_at : Option String := none
  updated_at : Option String := none
  created_by : Option String := none
  activity_summary : Option String := none
deriving DecidableEq

/-- A row of the externally-owned `stories` table (the columns the engine reads). -/
structure StoryRow where
  id : String
  title : Option String := none
  epic_id : Option String := none
deriving DecidableEq

/-- A row of the externally-owned `epics` table (the columns the engine reads). -/
structure EpicRow where
  id : String
  title : Option String := none
  priority : Option String := none
deriving DecidableEq

/-- A row of the `task_activity` table. -/
structure ActivityRow where
  id : String
  task_id : String
  activity_type : Option String := none
  description : Option String := none
  old_value : Option String := none
  new_value : Option String := none
  actor : Option String := none
  created_at : Option String := none
deriving DecidableEq

/-- A row of the `task_dependencies` table. -/
structure DepRow where
  id : String
  task_id : String
  depends_on_task_id : String
  dependency_type : Option String := none
  created_at : Option String := none
deriving DecidableEq

/-- A row of the `task_files` table. -/
structure FileRow where
  id : String
  task_id : String
  file_path : String := ""
  file_type : Option String := none
  created_at : Option String := none
deriving DecidableEq

/-- The persisted state: the six tables as row lists. -/
structure Store where
  tasks : List TaskRow := []
  stories : List StoryRow := []
  epics : List EpicRow := []
  activities : List ActivityRow := []
  deps : List DepRow := []
  files : List FileRow := []
deriving DecidableEq

/-- The Python `Task` dataclass: a task row together with the fields joined
from its story and epic by `get_tasks`. -/
structure JTask where
  id : String
  story_id : Option String := none
  title : String := ""
  status : String := "todo"
  task_type : Option String := none
  estimate_hours : Option Rat := none
  description : Option String := none
  context_summary : Option String := none
  working_files : Option String := none
  blockers : Option String := none
  handoff_notes : Option String := none
  progress_percent : Option Int := none
  actual_hours : Option Rat := none
  created_at : Option String := none
  updated_at : Option String := none
  created_by : Option String := none
  activity_summary : Option String := none
  story_title : Option String := none
  epic_id : Option String := none
  epic_title : Option String := none
  epic_priority : Option String := none
deriving DecidableEq

/-! ### Ordering helpers (SQLite `ORDER BY`, Python `sorted`)

Both SQLite `ORDER BY` (with distinct keys) and Python `sorted` (stable) are
modelled by a stable insertion sort over a boolean `le` comparator. -/

/-- Insert `x` into `l` before the first element `y` with `le x y = true`
(stable insertion). -/
def insertLe (le : α → α → Bool) (x : α) : List α → List α
  | [] => [x]
  | y :: ys => if le x y then x :: y :: ys else y :: insertLe le x ys

/-- Stable insertion sort by the boolean comparator `le`. -/
def sortLe (le : α → α → Bool) (l : List α) : List α := l.foldr (insertLe le) []

/-- Lexicographic comparison of character lists by codepoint. -/
def charListLt : List Char → List Char → Bool
  | [], [] => false
  | [], _ :: _ => true
  | _ :: _, [] => false
  | a :: as, b :: bs =>
    if a.toNat < b.toNat then true
    else if b.toNat < a.toNat then false
    else charListLt as bs

/-- Strict text comparison by codepoint: both the SQLite `BINARY` collation
(byte order of UTF-8 equals codepoint order) and Python string comparison. -/
def strLt (a b : String) : Bool := charListLt a.data b.data

/-- Non-strict codepoint text comparison. -/
def strLe (a b : String) : Bool := strLt a b || a == b

/-- SQLite ascending comparison on a nullable text column: `NULL` sorts first,
text compares by codepoints (`BINARY` collation on UTF-8). -/
def optStrLe (a b : Option String) : Bool :=
  match a, b with
  | none, _ => true
  | some _, none => false
  | some x, some y => strLe x y

/-- Strict version of `optStrLe`. -/
def optStrLt (a b : Option String) : Bool :=
  match a, b with
  | none, none => false
  | none, some _ => true
  | some _, none => false
  | some x, some y => strLt x y

/-! ### Read operations -/

/-- A `tasks` row joined (LEFT JOIN) with its story and epic. -/
structure JoinedRow where
  t : TaskRow
  s : Option StoryRow
  e : Option EpicRow

/-- Resolve the `LEFT JOIN stories s ON t.story_id = s.id` and
`LEFT JOIN epics e ON s.epic_id = e.id` of `get_tasks` for one task row. -/
def joinRow (store : Store) (t : TaskRow) : JoinedRow :=
  let s := match t.story_id with
    | none => none
    | some sid => store.stories.find? (fun st => st.id == sid)
  let e := match s with
    | none => none
    | some st => match st.epic_id with
      | none => none
      | some eid => store.epics.find? (fun ep => ep.id == eid)
  ⟨t, s, e⟩

/-- The `e.priority` column of a joined row (`NULL` when the join missed). -/
def rowPriority (r : JoinedRow) : Option String := r.e.bind (fun e => e.priority)

/-- The `ORDER BY e.priority, t.id` comparator of `get_tasks`. -/
def getTasksLe (a b : JoinedRow) : Bool :=
  if rowPriority a = rowPriority b then strLe a.t.id b.t.id
  else optStrLt (rowPriority a) (rowPriority b)

/-- Load a joined row into the Python `Task` dataclass (note
`status=row["status"] or "todo"`). -/
def loadTask (r : JoinedRow) : JTask :=
  { id := r.t.id
    story_id := r.t.story_id
    title := r.t.title
    status := if r.t.status = "" then "todo" else r.t.status
    task_type := r.t.task_type
    estimate_hours := r.t.estimate_hours
    description := r.t.description
    context_summary := r.t.context_summary
    working_files := r.t.working_files
    blockers := r.t.blockers
    handoff_notes := r.t.handoff_notes
    progress_percent := r.t.progress_percent
    actual_hours := r.t.actual_hours
    created_at := r.t.created_at
    updated_at := r.t.updated_at
    created_by := r.t.created_by
    activity_summary := r.t.activity_summary
    story_title := r.s.bind (fun st => st.title)
    epic_id := r.s.bind (fun st => st.epic_id)
    epic_title := r.e.bind (fun e => e.title)
    epic_priority := r.e.bind (fun e => e.priority) }

/-- `TaskDatabase.get_tasks(status=, epic_id=, priority=, limit=)`: join,
filter, order by `(e.priority, t.id)`, truncate to `limit`, load. -/
def get_tasks (store : Store) (status : Option String) (epic_id : Option String)
    (priority : Option String) (limit : Nat) : List JTask :=
  let rows := store.tasks.map (joinRow store)
  let rows := if pyTruthy status then
      rows.filter (fun r => r.t.status == status.getD "") else rows
  let rows := if pyTruthy epic_id then
      rows.filter (fun r => r.s.bind (fun st => st.epic_id) == some (epic_id.getD "")) else rows
  let rows := if pyTruthy priority then
      rows.filter (fun r => rowPriority r == some (priority.getD "")) else rows
  ((sortLe getTasksLe rows).take limit).map loadTask

/-- `TaskDatabase.get_task`: fetch up to 1000 tasks and scan for the id. -/
def get_task (store : Store) (task_id : String) : Option JTask :=
  (get_tasks store none none none 1000).find? (fun t => t.id == task_id)

/-- `TaskDatabase.get_blocking_dependencies`: ids of depended-upon tasks of
`task_id` whose joined task row has status other than `'done'`. -/
def get_blocking_dependencies (store : Store) (task_id : String) : List String :=
  ((store.deps.filter (fun d => d.task_id == task_id)).map (fun d =>
    (store.tasks.filter (fun t => t.id == d.depends_on_task_id && t.status != "done")).map
      (fun _ => d.depends_on_task_id))).flatten

/-- `TaskDatabase.is_task_blocked_by_dependencies`. -/
def is_task_blocked_by_dependencies (store : Store) (task_id : String) : Bool :=
  decide ((get_blocking_dependencies store task_id).length > 0)

/-- One entry of `SessionContext.recent_activity` (an activity row joined with
its task title). -/
structure RecentActivity where
  task_id : String
  task_title : String
  activity_type : Option String
  description : Option String
  created_at : Option String
deriving DecidableEq

/-- The `SessionContext` dataclass. -/
structure SessionContext where
  in_progress_tasks : List JTask
  blocked_tasks : List JTask
  recent_activity : List RecentActivity
  suggested_next_task : Option JTask
deriving DecidableEq

/-- Python `priority_order.get(p, 99)` with
`priority_order = {"P0": 0, "P1": 1, "P2": 2, "P3": 3}`. -/
def priorityRank (p : Option String) : Nat :=
  match p with
  | some "P0" => 0
  | some "P1" => 1
  | some "P2" => 2
  | some "P3" => 3
  | _ => 99

/-- The up-to-20 todo candidates considered for `suggested_next_task`
(`next_tasks` in `get_session_context`). -/
def todoCandidates (store : Store) : List JTask :=
  get_tasks store (some "todo") none none 20

/-- The candidates remaining after discarding dependency-blocked ones
(`available_tasks` in `get_session_context`). -/
def availableCandidates (store : Store) : List JTask :=
  (todoCandidates store).filter (fun t => !(is_task_blocked_by_dependencies store t.id))

/-- `TaskDatabase.get_session_context`. -/
def get_session_context (store : Store) : SessionContext :=
  let in_progress := get_tasks store (some "in_progress") none none 10
  let blocked := get_tasks store (some "blocked") none none 10
  let joined := (store.activities.map (fun a =>
      (store.tasks.filter (fun t => t.id == a.task_id)).map (fun t => (a, t)))).flatten
  let recent := ((sortLe (fun p q => optStrLe q.1.created_at p.1.created_at) joined).take 10).map
      (fun p => ({ task_id := p.1.task_id, task_title := p.2.title,
                   activity_type := p.1.activity_type, description := p.1.description,
                   created_at := p.1.created_at } : RecentActivity))
  let next_tasks := todoCandidates store
  let suggested :=
    if next_tasks.isEmpty then none
    else
      let available := next_tasks.filter (fun t => !(is_task_blocked_by_dependencies store t.id))
      if available.isEmpty then none
      else (sortLe (fun a b =>
             decide (priorityRank a.epic_priority ≤ priorityRank b.epic_priority)) available).head?
  ⟨in_progress, blocked, recent, suggested⟩

/-- `TaskDatabase.get_next_task`: continue in-progress work if any, else the
suggested next todo, else nothing. -/
def get_next_task (store : Store) : Option JTask :=
  let ctx := get_session_context store
  match ctx.in_progress_tasks with
  | t :: _ => get_task store t.id
  | [] =>
    match ctx.suggested_next_task with
    | some t => get_task store t.id
    | none => none

/-! ### Mutating operations

Each operation returns its Python result paired with the successor store.
A caught `sqlite3.Error` (in this model: a PRIMARY KEY conflict on an
`INSERT`) yields the failure result with the original store (the uncommitted
transaction is rolled back when the connection closes). -/

/-- SQL `UPDATE tasks SET ... WHERE id = task_id`: rewrite every matching row. -/
def updateTaskRows (tasks : List TaskRow) (task_id : String) (f : TaskRow → TaskRow) :
    List TaskRow :=
  tasks.map (fun t => if t.id == task_id then f t else t)

/-- SQL `INSERT INTO task_activity`: fails (`IntegrityError`) on a duplicate
primary key, otherwise appends the row. -/
def insertActivity (store : Store) (a : ActivityRow) : Option Store :=
  if store.activities.any (fun x => x.id == a.id) then none
  else some { store with activities := store.activities ++ [a] }

/-- The activity rows of a task in `created_at` ascending order
(the `SELECT * FROM task_activity WHERE task_id = ? ORDER BY created_at ASC`
of `summarize_task_activity`). -/
def summaryRows (store : Store) (task_id : String) : List ActivityRow :=
  sortLe (fun a b => optStrLe a.created_at b.created_at)
    (store.activities.filter (fun a => a.task_id == task_id))

/-- The last `n` elements of a list (Python `l[-n:]`). -/
def lastN (n : Nat) (l : List α) : List α := l.drop (l.length - n)

/-- The per-type count lines of the summary, sorted by type name
(`sorted(type_counts.items())`). -/
def typeCountLines (store : Store) (task_id : String) : List String :=
  let types := (summaryRows store task_id).map (fun r => pyOrStr r.activity_type "unknown")
  (sortLe (fun a b => strLe a b) types.eraseDups).map
    (fun t => "  - " ++ t ++ ": " ++ toString (types.count t))

/-- The `Status history:` section of the summary (empty when the task has no
`status_change` rows). -/
def statusHistoryLines (store : Store) (task_id : String) : List String :=
  let status_changes := (summaryRows store task_id).filter
    (fun r => r.activity_type == some "status_change")
  if status_changes.isEmpty then []
  else "" :: "Status history:" :: status_changes.map (fun sc =>
    let ts := match sc.created_at with
      | some s => if s = "" then "?" else s.take 10
      | none => "?"
    "  - " ++ ts ++ ": " ++ pyOrStr sc.old_value "?" ++ " -> " ++ pyOrStr sc.new_value "?")

/-- The `Recent notes:` section of the summary: the last three `note` rows
with descriptions truncated to 100 characters. -/
def recentNoteLines (store : Store) (task_id : String) : List String :=
  let notes := (summaryRows store task_id).filter (fun r => r.activity_type == some "note")
  if notes.isEmpty then []
  else "" :: "Recent notes:" :: (lastN 3 notes).map (fun n =>
    let desc := pyOrStr n.description ""
    let desc := if desc.length > 100 then desc.take 100 ++ "..." else desc
    "  - " ++ desc)

/-- The `summary_lines` list built by `summarize_task_activity`: a dated
header, the total count, a count-by-type breakdown sorted by type name, the
`status_change` timeline, and the last three notes truncated to 100
characters. -/
def summaryLines (store : Store) (task_id : String) (now : String) : List String :=
  ["Activity summary generated at " ++ now.take 10,
   "Total entries: " ++ toString (summaryRows store task_id).length, ""] ++
  ("By type:" :: typeCountLines store task_id) ++
  statusHistoryLines store task_id ++ recentNoteLines store task_id

/-- The summary text: `"\n".join(summary_lines)`. -/
def summaryText (store : Store) (task_id : String) (now : String) : String :=
  String.intercalate "\n" (summaryLines store task_id now)

/-- `TaskDatabase.summarize_task_activity`: below `min_entries` activity rows
return no summary and change nothing; otherwise build the textual digest,
store it on the task, and optionally prune all but the newest 3 rows. -/
def summarize_task_activity (store : Store) (task_id : String) (delete_raw : Bool)
    (min_entries : Nat) (now : String) : Option String × Store :=
  let rows := summaryRows store task_id
  if rows.length < min_entries then (none, store)
  else
    let summary := summaryText store task_id now
    let tasks1 := updateTaskRows store.tasks task_id
        (fun t => { t with activity_summary := some summary, updated_at := some now })
    let store1 := { store with tasks := tasks1 }
    let store2 :=
      if delete_raw && rows.length ≥ 3 then
        let keep_ids := (lastN 3 rows).map (fun r => r.id)
        { store1 with activities := (store1.activities.filter
            (fun a => !(a.task_id == task_id) || keep_ids.contains a.id)) }
      else store1
    (some summary, store2)

/-- `TaskDatabase.update_task_status`: look up the current status (absent task
fails), update status / optional handoff notes, log a `status_change`
activity, and auto-summarize on reaching `done` or `archived`. -/
def update_task_status (store : Store) (task_id : String) (status : String)
    (notes : Option String) (actor : String) (now : String) : Bool × Store :=
  match store.tasks.find? (fun t => t.id == task_id) with
  | none => (false, store)
  | some row =>
    let tasks1 :=
      if pyTruthy notes then
        updateTaskRows store.tasks task_id
          (fun t => { t with status := status, handoff_notes := notes, updated_at := some now })
      else
        updateTaskRows store.tasks task_id
          (fun t => { t with status := status, updated_at := some now })
    let act : ActivityRow :=
      { id := generate_activity_id task_id "status_change" now, task_id := task_id
        activity_type := some "status_change", old_value := some row.status
        new_value := some status, actor := some actor, created_at := some now }
    match insertActivity { store with tasks := tasks1 } act with
    | none => (false, store)
    | some s1 =>
      if status == "done" || status == "archived" then
        (true, (summarize_task_activity s1 task_id false 5 now).2)
      else (true, s1)

/-- `TaskDatabase.add_task_activity`: append an activity entry and stamp the
task `updated_at` (no existence check on the task). -/
def add_task_activity (store : Store) (task_id : String) (activity_type : String)
    (description : String) (actor : String) (now : String) : Bool × Store :=
  let act : ActivityRow :=
    { id := generate_activity_id task_id activity_type now, task_id := task_id
      activity_type := some activity_type, description := some description
      actor := some actor, created_at := some now }
  match insertActivity store act with
  | none => (false, store)
  | some s1 =>
    (true, { s1 with tasks := (updateTaskRows s1.tasks task_id
              (fun t => { t with updated_at := some now })) })

/-- `TaskDatabase.set_blocker`: mark an existing task blocked with a reason
and log the transition. -/
def set_blocker (store : Store) (task_id : String) (reason : String) (actor : String)
    (now : String) : Bool × Store :=
  match store.tasks.find? (fun t => t.id == task_id) with
  | none => (false, store)
  | some row =>
    let tasks1 := updateTaskRows store.tasks task_id
        (fun t => { t with status := "blocked", blockers := some reason, updated_at := some now })
    let act : ActivityRow :=
      { id := generate_activity_id task_id "status_change" now, task_id := task_id
        activity_type := some "status_change", description := some ("Blocked: " ++ reason)
        old_value := some row.status, new_value := some "blocked"
        actor := some actor, created_at := some now }
    match insertActivity { store with tasks := tasks1 } act with
    | none => (false, store)
    | some s1 => (true, s1)

/-- `TaskDatabase.resolve_blocker`: set the task back to `in_progress` and
clear `blockers`; note the source performs no existence check on `task_id`. -/
def resolve_blocker (store : Store) (task_id : String) (actor : String)
    (now : String) : Bool × Store :=
  let tasks1 := updateTaskRows store.tasks task_id
      (fun t => { t with status := "in_progress", blockers := none, updated_at := some now })
  let act : ActivityRow :=
    { id := generate_activity_id task_id "status_change" now, task_id := task_id
      activity_type := some "status_change", description := some "Blocker resolved"
      old_value := some "blocked", new_value := some "in_progress"
      actor := some actor, created_at := some now }
  match insertActivity { store with tasks := tasks1 } act with
  | none => (false, store)
  | some s1 => (true, s1)

/-- The collision loop of `create_task`: while the candidate id exists, try
`base-1`, `base-2`, …; give up once the counter passes 100.  The `fuel`
argument only bounds the recursion and is chosen large enough (≥ 101 at the
call site) never to run out before the counter check. -/
def resolveCollision (tasks : List TaskRow) (base : String) :
    String → Nat → Nat → Option String
  | _, _, 0 => none
  | current, counter, Nat.succ fuel =>
    if tasks.any (fun t => t.id == current) then
      let next := base ++ "-" ++ toString counter
      if counter + 1 > 100 then none
      else resolveCollision tasks base next (counter + 1) fuel
    else some current

/-- `TaskDatabase.create_task`: generate a content id (with collision
fallback), insert the `todo` task row, and log a `created` activity. -/
def create_task (store : Store) (title : String) (story_id : Option String)
    (task_type : String) (description : Option String) (estimate_hours : Option Rat)
    (actor : String) (now : String) : Option String × Store :=
  let base := generate_task_id title story_id now
  match resolveCollision store.tasks base base 1 200 with
  | none => (none, store)
  | some tid =>
    let row : TaskRow :=
      { id := tid, story_id := story_id, title := title, status := "todo"
        task_type := some task_type, description := description
        estimate_hours := estimate_hours, created_at := some now, updated_at := some now
        created_by := some actor }
    let act : ActivityRow :=
      { id := generate_activity_id tid "created" now, task_id := tid
        activity_type := some "created", description := some ("Task created: " ++ title)
        actor := some actor, created_at := some now }
    match insertActivity { store with tasks := store.tasks ++ [row] } act with
    | none => (none, store)
    | some s1 => (some tid, s1)

/-- Python truthiness of an optional number (`if estimate_hours:`). -/
def pyTruthyRat (v : Option Rat) : Bool :=
  match v with
  | some q => !(q == 0)
  | none => false

/-- `TaskDatabase.update_task`: partial update of title / description / type /
estimate.  With nothing to update it returns `True` untouched; otherwise it
updates whatever row matches (no existence check) and logs an `updated`
activity. -/
def update_task (store : Store) (task_id : String) (title : Option String)
    (description : Option String) (task_type : Option String)
    (estimate_hours : Option Rat) (actor : String) (now : String) : Bool × Store :=
  if title = none && description = none && task_type = none && estimate_hours = none then
    (true, store)
  else
    let tasks1 := updateTaskRows store.tasks task_id (fun t =>
      let t := match title with | some v => { t with title := v } | none => t
      let t := match description with | some v => { t with description := some v } | none => t
      let t := match task_type with | some v => { t with task_type := some v } | none => t
      let t := match estimate_hours with
        | some v => { t with estimate_hours := some v } | none => t
      { t with updated_at := some now })
    let changes :=
      (if pyTruthy title then ["title to '" ++ title.getD "" ++ "'"] else []) ++
      (if pyTruthy description then ["description"] else []) ++
      (if pyTruthy task_type then ["type to '" ++ task_type.getD "" ++ "'"] else []) ++
      (if pyTruthyRat estimate_hours then
        ["estimate to " ++ toString (estimate_hours.getD 0) ++ "h"] else [])
    let act : ActivityRow :=
      { id := generate_activity_id task_id "updated" now, task_id := task_id
        activity_type := some "updated"
        description := some ("Updated " ++ String.intercalate ", " changes)
        actor := some actor, created_at := some now }
    match insertActivity { store with tasks := tasks1 } act with
    | none => (false, store)
    | some s1 => (true, s1)

/-- `TaskDatabase.archive_task`: soft delete — set status `archived` on an
existing task and log the transition, touching nothing else. -/
def archive_task (store : Store) (task_id : String) (reason : String) (actor : String)
    (now : String) : Bool × Store :=
  match store.tasks.find? (fun t => t.id == task_id) with
  | none => (false, store)
  | some row =>
    let tasks1 := updateTaskRows store.tasks task_id
        (fun t => { t with status := "archived", updated_at := some now })
    let description :=
      if reason == "" then "Task archived" else "Task archived" ++ ": " ++ reason
    let act : ActivityRow :=
      { id := generate_activity_id task_id "status_change" now, task_id := task_id
        activity_type := some "status_change", description := some description
        old_value := some row.status, new_value := some "archived"
        actor := some actor, created_at := some now }
    match insertActivity { store with tasks := tasks1 } act with
    | none => (false, store)
    | some s1 => (true, s1)

/-- `TaskDatabase.delete_task`: hard delete — remove the task's activity rows,
file rows, the dependency edges with it as `task_id`, and the task row;
report whether any row went away (`conn.total_changes > 0`). -/
def delete_task (store : Store) (task_id : String) : Bool × Store :=
  let acts := store.activities.filter (fun a => !(a.task_id == task_id))
  let fls := store.files.filter (fun f => !(f.task_id == task_id))
  let dps := store.deps.filter (fun d => !(d.task_id == task_id))
  let tks := store.tasks.filter (fun t => !(t.id == task_id))
  let changed := (store.activities.length - acts.length) + (store.files.length - fls.length) +
    (store.deps.length - dps.length) + (store.tasks.length - tks.length)
  (decide (changed > 0),
   { store with activities := acts, files := fls, deps := dps, tasks := tks })

/-- `TaskDatabase.add_dependency`: reject missing endpoints and self-reference;
return the existing edge id on a duplicate pair; otherwise insert a new edge
with a content-stable id. -/
def add_dependency (store : Store) (task_id : String) (depends_on_task_id : String)
    (dependency_type : String) (now : String) : Option String × Store :=
  if !(store.tasks.any (fun t => t.id == task_id)) ||
     !(store.tasks.any (fun t => t.id == depends_on_task_id)) then (none, store)
  else if task_id == depends_on_task_id then (none, store)
  else
    match store.deps.find? (fun d =>
        d.task_id == task_id && d.depends_on_task_id == depends_on_task_id) with
    | some existing => (some existing.id, store)
    | none =>
      let dep_id := generate_dependency_id task_id depends_on_task_id
      if store.deps.any (fun d => d.id == dep_id) then (none, store)
      else (some dep_id,
        { store with deps := store.deps ++
            [{ id := dep_id, task_id := task_id, depends_on_task_id := depends_on_task_id
               dependency_type := some dependency_type, created_at := some now }] })

/-- `TaskDatabase.remove_dependency`: delete the matching edge, reporting
whether a row was removed. -/
def remove_dependency (store : Store) (task_id : String) (depends_on_task_id : String) :
    Bool × Store :=
  let dps := store.deps.filter (fun d =>
      !(d.task_id == task_id && d.depends_on_task_id == depends_on_task_id))
  (decide (dps.length < store.deps.length), { store with deps := dps })

/-! ### Concrete stores used by witnesses and counterexamples -/

/-- A store with no rows at all. -/
def emptyStore : Store := {}

/-- A store holding one blocked task with a recorded blocker reason. -/
def blockedStore : Store :=
  { tasks := [{ id := "x", title := "X", status := "blocked", blockers := some "waiting" }] }

/-- A store holding two plain todo tasks `a` and `b`. -/
def twoTaskStore : Store :=
  { tasks := [{ id := "a", title := "A" }, { id := "b", title := "B" }] }

/-- Two tasks where `b` depends on `a`; used for the `delete_task` frame
counterexample. -/
def depEdgeStore : Store :=
  { tasks := [{ id := "a", title := "A" }, { id := "b", title := "B" }]
    deps := [{ id := "d1", task_id := "b", depends_on_task_id := "a" }] }

/-- Three unblocked todo tasks whose epics carry priorities P0, P1 and P2. -/
def priorityStore : Store :=
  { tasks := [{ id := "a2", story_id := some "s2", title := "C" },
              { id := "a1", story_id := some "s1", title := "B" },
              { id := "a0", story_id := some "s0", title := "A" }]
    stories := [{ id := "s0", title := some "S0", epic_id := some "e0" },
                { id := "s1", title := some "S1", epic_id := some "e1" },
                { id := "s2", title := some "S2", epic_id := some "e2" }]
    epics := [{ id := "e0", priority := some "P0" },
              { id := "e1", priority := some "P1" },
              { id := "e2", priority := some "P2" }] }

/-- A task `w` with five activity rows, enough for summarization. -/
def activityStore : Store :=
  { tasks := [{ id := "w", title := "W" }]
    activities := [
      { id := "x1", task_id := "w", activity_type := some "created"
        description := some "Task created: W", created_at := some "2024-01-01T10:00:00" },
      { id := "x2", task_id := "w", activity_type := some "status_change"
        old_value := some "todo", new_value := some "in_progress"
        created_at := some "2024-01-02T10:00:00" },
      { id := "x3", task_id := "w", activity_type := some "note"
        description := some "first note", created_at := some "2024-01-03T10:00:00" },
      { id := "x4", task_id := "w", activity_type := some "note"
        description := some "second note", created_at := some "2024-01-04T10:00:00" },
      { id := "x5", task_id := "w", activity_type := some "status_change"
        old_value := some "in_progress", new_value := some "done"
        created_at := some "2024-01-05T10:00:00" }] }

/-- A fixed-width decimal id `t0000` … `t0999`, so that string order agrees
with numeric order. -/
def padNum (i : Nat) : String :=
  let s := toString i
  "t" ++ String.mk (List.replicate (4 - s.length) '0') ++ s

/-- 1000 todo tasks `t0000` … `t0999` followed by one in-progress task `zz`
that sorts after all of them. -/
def bigTasks : List TaskRow :=
  ((List.range 1000).map (fun i => ({ id := padNum i, title := "T" } : TaskRow))) ++
  [{ id := "zz", title := "Z", status := "in_progress" }]

/-- A store with 1001 tasks, exceeding the 1000-row window `get_task` scans. -/
def bigStore : Store := { tasks := bigTasks }

/-! ### Helper lemmas about the stable insertion sort -/

theorem mem_insertLe {α} {le : α → α → Bool} (x y : α) (l : List α) :
    y ∈ insertLe le x l ↔ y = x ∨ y ∈ l := by
  induction l with
  | nil => simp [insertLe]
  | cons z zs ih =>
    simp only [insertLe]
    by_cases h : le x z = true
    · rw [if_pos h]
      simp only [List.mem_cons]
    · rw [if_neg h]
      simp only [List.mem_cons, ih]
      tauto

theorem length_insertLe {α} {le : α → α → Bool} (x : α) (l : List α) :
    (insertLe le x l).length = l.length + 1 := by
  induction l with
  | nil => rfl
  | cons z zs ih =>
    simp only [insertLe]
    by_cases h : le x z = true <;> simp [h, ih]

theorem length_sortLe {α} {le : α → α → Bool} (l : List α) :
    (sortLe le l).length = l.length := by
  induction l with
  | nil => rfl
  | cons z zs ih =>
    show (insertLe le z (sortLe le zs)).length = zs.length + 1
    rw [length_insertLe, ih]

theorem sortLe_head_min {α} (key : α → Nat) (l : List α) (x : α) (rest : List α)
    (h : sortLe (fun a b => decide (key a ≤ key b)) l = x :: rest) :
    x ∈ l ∧ ∀ u ∈ l, key x ≤ key u := by
  induction l generalizing x rest with
  | nil => simp [sortLe] at h
  | cons a l ih =>
    have hstep : sortLe (fun a b => decide (key a ≤ key b)) (a :: l) =
        insertLe (fun a b => decide (key a ≤ key b)) a
          (sortLe (fun a b => decide (key a ≤ key b)) l) := rfl
    rw [hstep] at h
    cases hl : sortLe (fun a b => decide (key a ≤ key b)) l with
    | nil =>
      have hlen : l.length = 0 := by
        have := @length_sortLe _ (fun a b => decide (key a ≤ key b)) l
        rw [hl] at this
        simpa using this.symm
      have hnil : l = [] := List.length_eq_zero.mp hlen
      subst hnil
      rw [hl] at h
      simp only [insertLe] at h
      have hx : x = a := (List.cons.inj h.symm).1
      rw [hx]
      constructor
      · exact List.mem_singleton_self a
      · intro u hu
        rcases List.mem_singleton.mp hu with rfl
        exact Nat.le_refl _
    | cons h0 t0 =>
      obtain ⟨hmem, hmin⟩ := ih h0 t0 hl
      rw [hl] at h
      simp only [insertLe] at h
      by_cases hc : decide (key a ≤ key h0) = true
      · rw [if_pos hc] at h
        have hx : x = a := (List.cons.inj h.symm).1
        rw [hx]
        refine ⟨List.mem_cons_self _ _, ?_⟩
        intro u hu
        rcases List.mem_cons.mp hu with rfl | hu
        · exact Nat.le_refl _
        · exact Nat.le_trans (of_decide_eq_true hc) (hmin u hu)
      · rw [if_neg hc] at h
        have hx : x = h0 := (List.cons.inj h.symm).1
        rw [hx]
        have hle : key h0 ≤ key a := by
          have hnot : ¬ key a ≤ key h0 := by simpa using hc
          exact Nat.le_of_lt (Nat.lt_of_not_le hnot)
        refine ⟨List.mem_cons_of_mem _ hmem, ?_⟩
        intro u hu
        rcases List.mem_cons.mp hu with rfl | hu
        · exact hle
        · exact hmin u hu

/-! ### C3: blocking dependencies -/

theorem mem_get_blocking (s : Store) (a x : String) :
    x ∈ get_blocking_dependencies s a ↔
      ∃ d ∈ s.deps, d.task_id = a ∧ d.depends_on_task_id = x ∧
        ∃ t ∈ s.tasks, t.id = x ∧ t.status ≠ "done" := by
  simp only [get_blocking_dependencies, List.mem_flatten, List.mem_map, List.mem_filter]
  constructor
  · rintro ⟨l, ⟨⟨d, ⟨hd, hda⟩, rfl⟩, hx⟩⟩
    rcases List.mem_map.mp hx with ⟨t, ht, rfl⟩
    rcases List.mem_filter.mp ht with ⟨hts, hcond⟩
    simp only [Bool.and_eq_true, beq_iff_eq, bne_iff_ne, ne_eq] at hcond
    exact ⟨d, hd, by simpa using hda, rfl, t, hts, hcond.1, hcond.2⟩
  · rintro ⟨d, hd, hda, rfl, t, ht, hti, hts⟩
    refine ⟨(s.tasks.filter (fun t => t.id == d.depends_on_task_id &&
        t.status != "done")).map (fun _ => d.depends_on_task_id), ⟨⟨d, ⟨hd, ?_⟩, rfl⟩, ?_⟩⟩
    · simpa using hda
    · exact List.mem_map.mpr ⟨t, List.mem_filter.mpr ⟨ht, by simp [hti, hts]⟩, rfl⟩

/-- C3: `is_task_blocked_by_dependencies s a` is true exactly when some
dependency edge of `a` points at an existing task whose status is not
`done`; once every depended-upon task of `a` is `done` it is false. -/
theorem is_blocked_iff_dependency_not_done (s : Store) (a : String) :
    (is_task_blocked_by_dependencies s a = true ↔
      ∃ d ∈ s.deps, d.task_id = a ∧
        ∃ t ∈ s.tasks, t.id = d.depends_on_task_id ∧ t.status ≠ "done") ∧
    ((∀ d ∈ s.deps, d.task_id = a →
        ∀ t ∈ s.tasks, t.id = d.depends_on_task_id → t.status = "done") →
      is_task_blocked_by_dependencies s a = false) := by
  have hmain : is_task_blocked_by_dependencies s a = true ↔
      ∃ d ∈ s.deps, d.task_id = a ∧
        ∃ t ∈ s.tasks, t.id = d.depends_on_task_id ∧ t.status ≠ "done" := by
    unfold is_task_blocked_by_dependencies
    rw [decide_eq_true_iff]
    rw [gt_iff_lt, List.length_pos_iff_exists_mem]
    constructor
    · rintro ⟨x, hx⟩
      rcases (mem_get_blocking s a x).mp hx with ⟨d, hd, hda, hdx, t, ht, hti, hts⟩
      exact ⟨d, hd, hda, t, ht, by rw [hdx]; exact hti, hts⟩
    · rintro ⟨d, hd, hda, t, ht, hti, hts⟩
      exact ⟨d.depends_on_task_id,
        (mem_get_blocking s a d.depends_on_task_id).mpr ⟨d, hd, hda, rfl, t, ht, hti, hts⟩⟩
  refine ⟨hmain, fun hall => ?_⟩
  rw [Bool.eq_false_iff]
  intro htrue
  rcases hmain.mp htrue with ⟨d, hd, hda, t, ht, hti, hts⟩
  exact hts (hall d hd hda t ht hti)

/-- C3 witness: in a two-task store where `b` depends on an unfinished `a`,
the characterization applies concretely. -/
theorem is_blocked_iff_dependency_not_done_witness :
    is_task_blocked_by_dependencies depEdgeStore "b" = true ∧
    is_task_blocked_by_dependencies
      { depEdgeStore with
        tasks := [{ id := "a", title := "A", status := "done" }, { id := "b", title := "B" }] }
      "b" = false := by
  constructor
  · exact (is_blocked_iff_dependency_not_done depEdgeStore "b").1.mpr
      ⟨{ id := "d1", task_id := "b", depends_on_task_id := "a" }, by decide, by decide,
       { id := "a", title := "A" }, by decide, by decide, by decide⟩
  · exact (is_blocked_iff_dependency_not_done _ "b").2 (by decide)

/-! ### C5: self-dependencies and missing endpoints are rejected -/

/-- C5: `add_dependency a a` always fails without touching the store, and so
does `add_dependency a b` when either endpoint id has no task row. -/
theorem add_dependency_rejects_self_and_missing :
    (∀ (s : Store) (a ty now : String), add_dependency s a a ty now = (none, s)) ∧
    (∀ (s : Store) (a b ty now : String),
      ((∀ t ∈ s.tasks, t.id ≠ a) ∨ (∀ t ∈ s.tasks, t.id ≠ b)) →
      add_dependency s a b ty now = (none, s)) := by
  constructor
  · intro s a ty now
    unfold add_dependency
    by_cases h : (!(s.tasks.any fun t => t.id == a) || !(s.tasks.any fun t => t.id == a)) = true
    · rw [if_pos h]
    · rw [if_neg h]
      simp
  · intro s a b ty now hmiss
    unfold add_dependency
    have hcond : (!(s.tasks.any fun t => t.id == a) ||
        !(s.tasks.any fun t => t.id == b)) = true := by
      rcases hmiss with hmiss | hmiss
      · have : (s.tasks.any fun t => t.id == a) = false := by
          rw [List.any_eq_false]
          intro t ht
          simpa using hmiss t ht
        simp [this]
      · have : (s.tasks.any fun t => t.id == b) = false := by
          rw [List.any_eq_false]
          intro t ht
          simpa using hmiss t ht
        simp [this]
    rw [if_pos hcond]

/-- C5 witness: the rejection applies concretely to a self-edge on task `a`
and to the missing endpoint `zz` of `twoTaskStore`. -/
theorem add_dependency_rejects_witness :
    add_dependency twoTaskStore "a" "a" "blocks" "T" = (none, twoTaskStore) ∧
    add_dependency twoTaskStore "a" "zz" "blocks" "T" = (none, twoTaskStore) :=
  ⟨add_dependency_rejects_self_and_missing.1 twoTaskStore "a" "blocks" "T",
   add_dependency_rejects_self_and_missing.2 twoTaskStore "a" "zz" "blocks" "T"
     (Or.inr (by decide))⟩

/-! ### C9: identity generation -/

/-- C9 counterexample: the input triples `("x", None, "1")` and
`("x", "", "1")` differ, yet both encode to the content string `x||1`
(because of `story_id or ''`), so they receive the identical task id with no
SHA-256 collision involved. -/
theorem generate_task_id_none_empty_collision :
    (none : Option String) ≠ some "" ∧
    generate_task_id "x" none "1" = generate_task_id "x" (some "") "1" :=
  ⟨by decide, rfl⟩

/-- C9 amended: the task id generator is deterministic, and two calls agree
exactly when the truncated hashes of their encoded contents
`title|story_id-or-empty|timestamp` agree; inputs whose encodings coincide
(None versus empty story id, or a `|` shifted between fields) therefore share
an id without any hash collision. -/
theorem generate_task_id_eq_iff (t1 t2 : String) (sid1 sid2 : Option String)
    (ts1 ts2 : String) :
    generate_task_id t1 sid1 ts1 = generate_task_id t2 sid2 ts2 ↔
      (sha256hex (taskIdContent t1 sid1 ts1)).take 8 =
        (sha256hex (taskIdContent t2 sid2 ts2)).take 8 := by
  unfold generate_task_id
  constructor
  · intro h
    have hd := congrArg String.data h
    rw [String.data_append, String.data_append] at hd
    exact String.ext (List.append_cancel_left hd)
  · intro h
    rw [h]

/-! ### C8: archive versus hard delete -/

/-- C8 counterexample: hard-deleting task `a` succeeds but leaves the edge
`b depends-on a` in place, because `delete_task` only removes rows whose
`task_id` column matches — the `depends_on_task_id` endpoint is not cascaded. -/
theorem delete_task_keeps_incoming_edges :
    (delete_task depEdgeStore "a").1 = true ∧
    (delete_task depEdgeStore "a").2.deps =
      [{ id := "d1", task_id := "b", depends_on_task_id := "a" }] := by
  constructor
  · rfl
  · rfl

/-- C8 amended: `archive_task` deletes no activity, dependency or file row
(it appends exactly one activity entry), while `delete_task` removes the
task's activity rows, file rows, and the dependency edges having it as
`task_id` — edges where it appears only as `depends_on_task_id` survive. -/
theorem archive_task_frame_delete_task_cascade (s : Store) (tid reason actor now : String) :
    ((archive_task s tid reason actor now).1 = true →
      ∃ row, (archive_task s tid reason actor now).2.activities = s.activities ++ [row] ∧
        (archive_task s tid reason actor now).2.deps = s.deps ∧
        (archive_task s tid reason actor now).2.files = s.files) ∧
    ((delete_task s tid).2.activities = s.activities.filter (fun a => !(a.task_id == tid)) ∧
     (delete_task s tid).2.files = s.files.filter (fun f => !(f.task_id == tid)) ∧
     (delete_task s tid).2.deps = s.deps.filter (fun d => !(d.task_id == tid)) ∧
     (delete_task s tid).2.tasks = s.tasks.filter (fun t => !(t.id == tid))) := by
  constructor
  · intro hok
    cases hfind : s.tasks.find? (fun t => t.id == tid) with
    | none =>
      have harch : archive_task s tid reason actor now = (false, s) := by
        simp only [archive_task, hfind]
      rw [harch] at hok
      exact absurd hok (by simp)
    | some row =>
      by_cases hdup : (s.activities.any fun x =>
          x.id == generate_activity_id tid "status_change" now) = true
      · have harch : archive_task s tid reason actor now = (false, s) := by
          simp only [archive_task, hfind, insertActivity, hdup, if_true]
        rw [harch] at hok
        exact absurd hok (by simp)
      · rw [Bool.not_eq_true] at hdup
        have harch : archive_task s tid reason actor now =
            (true, { s with
              tasks := updateTaskRows s.tasks tid
                (fun t => { t with status := "archived", updated_at := some now })
              activities := s.activities ++
                [{ id := generate_activity_id tid "status_change" now, task_id := tid
                   activity_type := some "status_change"
                   description := some (if reason == "" then "Task archived"
                     else "Task archived" ++ ": " ++ reason)
                   old_value := some row.status, new_value := some "archived"
                   actor := some actor, created_at := some now }] }) := by
          simp only [archive_task, hfind, insertActivity, hdup, Bool.false_eq_true, if_false]
        rw [harch]
        exact ⟨_, rfl, rfl, rfl⟩
  · exact ⟨rfl, rfl, rfl, rfl⟩

/-- C8 witness: archiving task `a` of the two-task store with one edge
succeeds and concretely preserves the dependency and file tables while
appending one activity entry. -/
theorem archive_task_frame_witness :
    (archive_task depEdgeStore "a" "" "agent" "T").1 = true ∧
    ∃ row, (archive_task depEdgeStore "a" "" "agent" "T").2.activities =
        depEdgeStore.activities ++ [row] ∧
      (archive_task depEdgeStore "a" "" "agent" "T").2.deps = depEdgeStore.deps ∧
      (archive_task depEdgeStore "a" "" "agent" "T").2.files = depEdgeStore.files :=
  ⟨by decide,
   (archive_task_frame_delete_task_cascade depEdgeStore "a" "" "agent" "T").1 (by decide)⟩

/-! ### C4: dependency insertion is idempotent -/

/-- C4: after a successful `add_dependency a b`, repeating the call returns
the same dependency id and leaves the store (in particular the edge table)
unchanged. -/
theorem add_dependency_idempotent (s : Store) (a b ty ty2 now now2 d : String)
    (h : (add_dependency s a b ty now).1 = some d) :
    add_dependency (add_dependency s a b ty now).2 a b ty2 now2 =
      (some d, (add_dependency s a b ty now).2) := by
  by_cases hc1 : (!(s.tasks.any fun t => t.id == a) ||
      !(s.tasks.any fun t => t.id == b)) = true
  · have h1 : add_dependency s a b ty now = (none, s) := by
      simp only [add_dependency, hc1, if_true]
    rw [h1] at h
    exact absurd h (by simp)
  · rw [Bool.not_eq_true] at hc1
    by_cases hself : (a == b) = true
    · have h1 : add_dependency s a b ty now = (none, s) := by
        simp only [add_dependency, hc1, hself, Bool.false_eq_true, if_false, if_true]
      rw [h1] at h
      exact absurd h (by simp)
    · rw [Bool.not_eq_true] at hself
      cases hfind : s.deps.find? (fun dd =>
          dd.task_id == a && dd.depends_on_task_id == b) with
      | some e =>
        have h1 : add_dependency s a b ty now = (some e.id, s) := by
          simp only [add_dependency, hc1, hself, hfind, Bool.false_eq_true, if_false]
        have h2 : add_dependency s a b ty2 now2 = (some e.id, s) := by
          simp only [add_dependency, hc1, hself, hfind, Bool.false_eq_true, if_false]
        rw [h1] at h ⊢
        simp only [Option.some.injEq] at h
        rw [h2, h]
      | none =>
        by_cases hdup : (s.deps.any fun dd => dd.id == generate_dependency_id a b) = true
        · have h1 : add_dependency s a b ty now = (none, s) := by
            simp only [add_dependency, hc1, hself, hfind, hdup, Bool.false_eq_true,
              if_false, if_true]
          rw [h1] at h
          exact absurd h (by simp)
        · rw [Bool.not_eq_true] at hdup
          have h1 : add_dependency s a b ty now =
              (some (generate_dependency_id a b),
               { s with deps := s.deps ++
                  [{ id := generate_dependency_id a b, task_id := a, depends_on_task_id := b
                     dependency_type := some ty, created_at := some now }] }) := by
            simp only [add_dependency, hc1, hself, hfind, hdup, Bool.false_eq_true, if_false]
          rw [h1] at h ⊢
          simp only [Option.some.injEq] at h
          subst h
          simp only [add_dependency, hc1, hself, Bool.false_eq_true, if_false,
            List.find?_append, hfind, List.find?_cons, beq_self_eq_true, Bool.and_self,
            Option.none_or]

/-- C4 witness: adding the edge `a -> b` twice on the two-task store returns
the content-stable id both times and keeps a single edge row. -/
theorem add_dependency_idempotent_witness :
    add_dependency (add_dependency twoTaskStore "a" "b" "blocks" "T").2
        "a" "b" "requires" "T2" =
      (some (generate_dependency_id "a" "b"),
       (add_dependency twoTaskStore "a" "b" "blocks" "T").2) :=
  add_dependency_idempotent twoTaskStore "a" "b" "blocks" "requires" "T" "T2"
    (generate_dependency_id "a" "b") rfl

/-! ### C1 and C2: blockers invariant and missing-id error handling -/


/-- A SQL `UPDATE ... WHERE id = ?` touching no row leaves the table unchanged. -/
theorem updateTaskRows_no_match (l : List TaskRow) (tid : String) (f : TaskRow → TaskRow)
    (h : ∀ t ∈ l, t.id ≠ tid) : updateTaskRows l tid f = l := by
  unfold updateTaskRows
  rw [show l.map (fun t => if t.id == tid then f t else t) = l.map id from ?_, List.map_id]
  apply List.map_congr_left
  intro t ht
  have hne : (t.id == tid) = false := by
    rw [beq_eq_false_iff_ne]
    exact h t ht
  rw [hne]
  rfl

/-- Membership in an updated task table comes from a source row. -/
theorem mem_updateTaskRows (l : List TaskRow) (tid : String) (f : TaskRow → TaskRow)
    (t : TaskRow) (ht : t ∈ updateTaskRows l tid f) :
    ∃ t0 ∈ l, t = (if t0.id == tid then f t0 else t0) := by
  rcases List.mem_map.mp ht with ⟨t0, h0, rfl⟩
  exact ⟨t0, h0, rfl⟩

/-- An update that touches neither `id` nor `blockers` preserves both fields
row-wise. -/
theorem blockers_preserved_updateTaskRows (l : List TaskRow) (tid : String)
    (f : TaskRow → TaskRow) (hf : ∀ t0, (f t0).id = t0.id ∧ (f t0).blockers = t0.blockers)
    (t : TaskRow) (ht : t ∈ updateTaskRows l tid f) :
    ∃ t0 ∈ l, t0.id = t.id ∧ t0.blockers = t.blockers := by
  rcases mem_updateTaskRows _ _ _ _ ht with ⟨t0, h0, heq⟩
  by_cases hc : (t0.id == tid) = true
  · rw [if_pos hc] at heq
    exact ⟨t0, h0, by rw [heq, (hf t0).1], by rw [heq, (hf t0).2]⟩
  · rw [if_neg hc] at heq
    exact ⟨t0, h0, by rw [heq], by rw [heq]⟩

/-- The task table after `summarize_task_activity` is either untouched or the
result of storing the summary text on the matching task. -/
theorem summarize_tasks_eq (s : Store) (tid : String) (dr : Bool) (me : Nat) (now : String) :
    (summarize_task_activity s tid dr me now).2.tasks = s.tasks ∨
    (summarize_task_activity s tid dr me now).2.tasks =
      updateTaskRows s.tasks tid (fun t =>
        { t with activity_summary := some (summaryText s tid now), updated_at := some now }) := by
  by_cases hlen : (summaryRows s tid).length < me
  · left
    simp only [summarize_task_activity, if_pos hlen]
  · right
    simp only [summarize_task_activity, if_neg hlen, apply_ite Store.tasks, ite_self]

/-- `summarize_task_activity` preserves every row id and `blockers` value. -/
theorem summarize_preserves_blockers (s : Store) (tid0 : String) (dr : Bool) (me : Nat)
    (now0 : String) (t : TaskRow)
    (ht : t ∈ (summarize_task_activity s tid0 dr me now0).2.tasks) :
    ∃ t0 ∈ s.tasks, t0.id = t.id ∧ t0.blockers = t.blockers := by
  rcases summarize_tasks_eq s tid0 dr me now0 with hA | hB
  · rw [hA] at ht
    exact ⟨t, ht, rfl, rfl⟩
  · rw [hB] at ht
    refine blockers_preserved_updateTaskRows _ _ _ ?_ t ht
    intro t0
    exact ⟨rfl, rfl⟩

/-- An id returned by the collision loop of `create_task` is not present in
the task table. -/
theorem resolveCollision_not_mem (tasks : List TaskRow) (base : String) :
    ∀ (fuel counter : Nat) (cur tid : String),
      resolveCollision tasks base cur counter fuel = some tid →
      (tasks.any fun t => t.id == tid) = false := by
  intro fuel
  induction fuel with
  | zero => intro counter cur tid h; simp [resolveCollision] at h
  | succ fuel ih =>
    intro counter cur tid h
    unfold resolveCollision at h
    by_cases hex : (tasks.any fun t => t.id == cur) = true
    · rw [if_pos hex] at h
      by_cases hcnt : counter + 1 > 100
      · rw [if_pos hcnt] at h
        exact absurd h (by simp)
      · rw [if_neg hcnt] at h
        exact ih _ _ _ h
    · rw [if_neg hex] at h
      simp only [Option.some.injEq] at h
      rw [Bool.not_eq_true] at hex
      rw [← h]
      exact hex

/-- C1 amended: `set_blocker` stores the reason with status `blocked`,
`resolve_blocker` clears `blockers` forcing status `in_progress`, and
`create_task` creates tasks with null `blockers`; but `update_task_status`
and `archive_task` never touch the `blockers` field, so a transition away
from `blocked` made through them leaves `blockers` unchanged (possibly
non-null). -/
theorem blockers_field_behavior (s : Store) (tid st reason actor now title ttype : String)
    (notes sid descr : Option String) (est : Option Rat) :
    ((set_blocker s tid reason actor now).1 = true →
      ∀ t ∈ (set_blocker s tid reason actor now).2.tasks, t.id = tid →
        t.status = "blocked" ∧ t.blockers = some reason) ∧
    ((resolve_blocker s tid actor now).1 = true →
      ∀ t ∈ (resolve_blocker s tid actor now).2.tasks, t.id = tid →
        t.status = "in_progress" ∧ t.blockers = none) ∧
    (∀ t ∈ (update_task_status s tid st notes actor now).2.tasks,
      ∃ t0 ∈ s.tasks, t0.id = t.id ∧ t0.blockers = t.blockers) ∧
    (∀ t ∈ (archive_task s tid reason actor now).2.tasks,
      ∃ t0 ∈ s.tasks, t0.id = t.id ∧ t0.blockers = t.blockers) ∧
    (∀ tid0, (create_task s title sid ttype descr est actor now).1 = some tid0 →
      ∀ t ∈ (create_task s title sid ttype descr est actor now).2.tasks, t.id = tid0 →
        t.blockers = none) := by
  refine ⟨?_, ?_, ?_, ?_, ?_⟩
  · -- set_blocker
    intro hok t ht hid
    cases hfind : s.tasks.find? (fun t => t.id == tid) with
    | none =>
      have hres : set_blocker s tid reason actor now = (false, s) := by
        simp only [set_blocker, hfind]
      rw [hres] at hok
      exact absurd hok (by simp)
    | some row =>
      by_cases hdup : (s.activities.any fun x =>
          x.id == generate_activity_id tid "status_change" now) = true
      · have hres : set_blocker s tid reason actor now = (false, s) := by
          simp only [set_blocker, hfind, insertActivity, hdup, if_true]
        rw [hres] at hok
        exact absurd hok (by simp)
      · rw [Bool.not_eq_true] at hdup
        have htasks : (set_blocker s tid reason actor now).2.tasks =
            updateTaskRows s.tasks tid (fun t =>
              { t with status := "blocked", blockers := some reason,
                       updated_at := some now }) := by
          simp only [set_blocker, hfind, insertActivity, hdup, Bool.false_eq_true, if_false]
        rw [htasks] at ht
        rcases mem_updateTaskRows _ _ _ _ ht with ⟨t0, h0, heq⟩
        by_cases hc : (t0.id == tid) = true
        · rw [if_pos hc] at heq
          rw [heq]
          exact ⟨rfl, rfl⟩
        · rw [if_neg hc] at heq
          rw [heq] at hid
          rw [Bool.not_eq_true, beq_eq_false_iff_ne] at hc
          exact absurd hid hc
  · -- resolve_blocker
    intro hok t ht hid
    by_cases hdup : (s.activities.any fun x =>
        x.id == generate_activity_id tid "status_change" now) = true
    · have hres : resolve_blocker s tid actor now = (false, s) := by
        simp only [resolve_blocker, insertActivity, hdup, if_true]
      rw [hres] at hok
      exact absurd hok (by simp)
    · rw [Bool.not_eq_true] at hdup
      have htasks : (resolve_blocker s tid actor now).2.tasks =
          updateTaskRows s.tasks tid (fun t =>
            { t with status := "in_progress", blockers := none,
                     updated_at := some now }) := by
        simp only [resolve_blocker, insertActivity, hdup, Bool.false_eq_true, if_false]
      rw [htasks] at ht
      rcases mem_updateTaskRows _ _ _ _ ht with ⟨t0, h0, heq⟩
      by_cases hc : (t0.id == tid) = true
      · rw [if_pos hc] at heq
        rw [heq]
        exact ⟨rfl, rfl⟩
      · rw [if_neg hc] at heq
        rw [heq] at hid
        rw [Bool.not_eq_true, beq_eq_false_iff_ne] at hc
        exact absurd hid hc
  · -- update_task_status preserves blockers
    intro t ht
    cases hfind : s.tasks.find? (fun t => t.id == tid) with
    | none =>
      have hres : update_task_status s tid st notes actor now = (false, s) := by
        simp only [update_task_status, hfind]
      rw [hres] at ht
      exact ⟨t, ht, rfl, rfl⟩
    | some row =>
      by_cases hnotes : pyTruthy notes = true
      · by_cases hdup : (s.activities.any fun x =>
            x.id == generate_activity_id tid "status_change" now) = true
        · have hres : update_task_status s tid st notes actor now = (false, s) := by
            simp only [update_task_status, hfind, hnotes, if_true, insertActivity, hdup]
          rw [hres] at ht
          exact ⟨t, ht, rfl, rfl⟩
        · rw [Bool.not_eq_true] at hdup
          by_cases hdone : (st == "done" || st == "archived") = true
          · have hres : (update_task_status s tid st notes actor now).2 =
                (summarize_task_activity
                  { s with
                    tasks := updateTaskRows s.tasks tid (fun t =>
                      { t with status := st, handoff_notes := notes,
                               updated_at := some now })
                    activities := s.activities ++
                      [{ id := generate_activity_id tid "status_change" now, task_id := tid
                         activity_type := some "status_change", old_value := some row.status
                         new_value := some st, actor := some actor
                         created_at := some now }] }
                  tid false 5 now).2 := by
              simp only [update_task_status, hfind, hnotes, if_true, insertActivity, hdup,
                Bool.false_eq_true, if_false, hdone]
            rw [hres] at ht
            rcases summarize_preserves_blockers _ _ _ _ _ t ht with ⟨t1, ht1, hid1, hbl1⟩
            obtain ⟨t0, h0, hid0, hbl0⟩ := by
              refine blockers_preserved_updateTaskRows _ _ _ ?_ t1 ht1
              intro t2
              exact ⟨rfl, rfl⟩
            exact ⟨t0, h0, hid0.trans hid1, hbl0.trans hbl1⟩
          · have htasks : (update_task_status s tid st notes actor now).2.tasks =
                updateTaskRows s.tasks tid (fun t =>
                  { t with status := st, handoff_notes := notes,
                           updated_at := some now }) := by
              simp only [update_task_status, hfind, hnotes, if_true, insertActivity, hdup,
                Bool.false_eq_true, if_false, hdone]
            rw [htasks] at ht
            refine blockers_preserved_updateTaskRows _ _ _ ?_ t ht
            intro t2
            exact ⟨rfl, rfl⟩
      · by_cases hdup : (s.activities.any fun x =>
            x.id == generate_activity_id tid "status_change" now) = true
        · have hres : update_task_status s tid st notes actor now = (false, s) := by
            simp only [update_task_status, hfind, hnotes, Bool.false_eq_true, if_false,
              insertActivity, hdup, if_true]
          rw [hres] at ht
          exact ⟨t, ht, rfl, rfl⟩
        · rw [Bool.not_eq_true] at hdup
          by_cases hdone : (st == "done" || st == "archived") = true
          · have hres : (update_task_status s tid st notes actor now).2 =
                (summarize_task_activity
                  { s with
                    tasks := updateTaskRows s.tasks tid (fun t =>
                      { t with status := st, updated_at := some now })
                    activities := s.activities ++
                      [{ id := generate_activity_id tid "status_change" now, task_id := tid
                         activity_type := some "status_change", old_value := some row.status
                         new_value := some st, actor := some actor
                         created_at := some now }] }
                  tid false 5 now).2 := by
              simp only [update_task_status, hfind, hnotes, Bool.false_eq_true, if_false,
                insertActivity, hdup, hdone, if_true]
            rw [hres] at ht
            rcases summarize_preserves_blockers _ _ _ _ _ t ht with ⟨t1, ht1, hid1, hbl1⟩
            obtain ⟨t0, h0, hid0, hbl0⟩ := by
              refine blockers_preserved_updateTaskRows _ _ _ ?_ t1 ht1
              intro t2
              exact ⟨rfl, rfl⟩
            exact ⟨t0, h0, hid0.trans hid1, hbl0.trans hbl1⟩
          · have htasks : (update_task_status s tid st notes actor now).2.tasks =
                updateTaskRows s.tasks tid (fun t =>
                  { t with status := st, updated_at := some now }) := by
              simp only [update_task_status, hfind, hnotes, Bool.false_eq_true, if_false,
                insertActivity, hdup, hdone]
            rw [htasks] at ht
            refine blockers_preserved_updateTaskRows _ _ _ ?_ t ht
            intro t2
            exact ⟨rfl, rfl⟩
  · -- archive_task preserves blockers
    intro t ht
    cases hfind : s.tasks.find? (fun t => t.id == tid) with
    | none =>
      have hres : archive_task s tid reason actor now = (false, s) := by
        simp only [archive_task, hfind]
      rw [hres] at ht
      exact ⟨t, ht, rfl, rfl⟩
    | some row =>
      by_cases hdup : (s.activities.any fun x =>
          x.id == generate_activity_id tid "status_change" now) = true
      · have hres : archive_task s tid reason actor now = (false, s) := by
          simp only [archive_task, hfind, insertActivity, hdup, if_true]
        rw [hres] at ht
        exact ⟨t, ht, rfl, rfl⟩
      · rw [Bool.not_eq_true] at hdup
        have htasks : (archive_task s tid reason actor now).2.tasks =
            updateTaskRows s.tasks tid (fun t =>
              { t with status := "archived", updated_at := some now }) := by
          simp only [archive_task, hfind, insertActivity, hdup, Bool.false_eq_true, if_false]
        rw [htasks] at ht
        refine blockers_preserved_updateTaskRows _ _ _ ?_ t ht
        intro t2
        exact ⟨rfl, rfl⟩
  · -- create_task creates with null blockers
    intro tid0 hok t ht hid
    cases hres : resolveCollision s.tasks (generate_task_id title sid now)
        (generate_task_id title sid now) 1 200 with
    | none =>
      have hk : create_task s title sid ttype descr est actor now = (none, s) := by
        simp only [create_task, hres]
      rw [hk] at hok
      exact absurd hok (by simp)
    | some tid1 =>
      by_cases hdup : ((s.activities.any fun x =>
          x.id == generate_activity_id tid1 "created" now)) = true
      · have hk : create_task s title sid ttype descr est actor now = (none, s) := by
          simp only [create_task, hres, insertActivity, hdup, if_true]
        rw [hk] at hok
        exact absurd hok (by simp)
      · rw [Bool.not_eq_true] at hdup
        have hfst : (create_task s title sid ttype descr est actor now).1 = some tid1 := by
          simp only [create_task, hres, insertActivity, hdup, Bool.false_eq_true, if_false]
        have htasks : (create_task s title sid ttype descr est actor now).2.tasks =
            s.tasks ++
              [{ id := tid1, story_id := sid, title := title, status := "todo"
                 task_type := some ttype, description := descr
                 estimate_hours := est, created_at := some now, updated_at := some now
                 created_by := some actor }] := by
          simp only [create_task, hres, insertActivity, hdup, Bool.false_eq_true, if_false]
        rw [hfst] at hok
        simp only [Option.some.injEq] at hok
        rw [htasks] at ht
        rcases List.mem_append.mp ht with hmem | hmem
        · exfalso
          have hnone := resolveCollision_not_mem s.tasks
            (generate_task_id title sid now) 200 1
            (generate_task_id title sid now) tid1 hres
          rw [List.any_eq_false] at hnone
          rw [← hok] at hid
          exact hnone t hmem (by simp [hid])
        · rcases List.mem_singleton.mp hmem with rfl
          rfl

/-- C1 counterexample: moving the blocked task `x` to `in_progress` via
`update_task_status` succeeds yet leaves `blockers = some "waiting"` in
place, violating the claimed invariant that leaving `blocked` clears the
field. -/
theorem update_task_status_keeps_blockers_cx :
    (update_task_status blockedStore "x" "in_progress" none "agent" "T").1 = true ∧
    (update_task_status blockedStore "x" "in_progress" none "agent" "T").2.tasks =
      [{ id := "x", title := "X", status := "in_progress", blockers := some "waiting",
         updated_at := some "T" }] :=
  ⟨rfl, rfl⟩

/-- C1 witness: resolving the blocker of the concrete blocked store succeeds
and the resulting task row has status `in_progress` with null `blockers`. -/
theorem blockers_field_behavior_witness :
    (resolve_blocker blockedStore "x" "agent" "T").1 = true ∧
    (({ id := "x", title := "X", status := "in_progress", blockers := none,
        updated_at := some "T" } : TaskRow).status = "in_progress" ∧
     ({ id := "x", title := "X", status := "in_progress", blockers := none,
        updated_at := some "T" } : TaskRow).blockers = none) :=
  ⟨by decide,
   (blockers_field_behavior blockedStore "x" "done" "r" "agent" "T" "N" "feature"
      none none none none).2.1 (by decide)
    { id := "x", title := "X", status := "in_progress", blockers := none,
      updated_at := some "T" } (by decide) (by decide)⟩

/-- C2 counterexample: `resolve_blocker` on an id absent from the empty store
returns `True` (not a failure) and writes one activity row. -/
theorem resolve_blocker_missing_id_cx :
    emptyStore.tasks = [] ∧
    (resolve_blocker emptyStore "ghost" "agent" "T").1 = true ∧
    (resolve_blocker emptyStore "ghost" "agent" "T").2.activities.length = 1 :=
  ⟨rfl, rfl, rfl⟩

/-- C2 amended: on a missing task id, `update_task_status`, `set_blocker` and
`archive_task` return `False` without writing; `resolve_blocker` and
`update_task` (with a field to update) instead return `True` and append one
activity row while writing no task row. -/
theorem missing_task_id_behavior (s : Store) (tid st reason actor now : String)
    (notes title descr ttype : Option String) (est : Option Rat)
    (hmiss : ∀ t ∈ s.tasks, t.id ≠ tid) :
    update_task_status s tid st notes actor now = (false, s) ∧
    set_blocker s tid reason actor now = (false, s) ∧
    archive_task s tid reason actor now = (false, s) ∧
    ((s.activities.any fun x =>
        x.id == generate_activity_id tid "status_change" now) = false →
      (resolve_blocker s tid actor now).1 = true ∧
      (resolve_blocker s tid actor now).2.tasks = s.tasks ∧
      (resolve_blocker s tid actor now).2.activities.length = s.activities.length + 1) ∧
    (title ≠ none →
      (s.activities.any fun x => x.id == generate_activity_id tid "updated" now) = false →
      (update_task s tid title descr ttype est actor now).1 = true ∧
      (update_task s tid title descr ttype est actor now).2.tasks = s.tasks ∧
      (update_task s tid title descr ttype est actor now).2.activities.length =
        s.activities.length + 1) := by
  have hfind : s.tasks.find? (fun t => t.id == tid) = none := by
    rw [List.find?_eq_none]
    intro t ht
    simpa using hmiss t ht
  refine ⟨?_, ?_, ?_, ?_, ?_⟩
  · simp only [update_task_status, hfind]
  · simp only [set_blocker, hfind]
  · simp only [archive_task, hfind]
  · intro hdup
    have hres : resolve_blocker s tid actor now =
        (true, { s with
          tasks := updateTaskRows s.tasks tid (fun t =>
            { t with status := "in_progress", blockers := none, updated_at := some now })
          activities := s.activities ++
            [{ id := generate_activity_id tid "status_change" now, task_id := tid
               activity_type := some "status_change", description := some "Blocker resolved"
               old_value := some "blocked", new_value := some "in_progress"
               actor := some actor, created_at := some now }] }) := by
      simp only [resolve_blocker, insertActivity, hdup, Bool.false_eq_true, if_false]
    rw [hres]
    exact ⟨by simp, updateTaskRows_no_match _ _ _ hmiss, by simp⟩
  · intro htitle hdup
    have key : (update_task s tid title descr ttype est actor now).1 = true ∧
        (update_task s tid title descr ttype est actor now).2.tasks = s.tasks ∧
        (update_task s tid title descr ttype est actor now).2.activities.length =
          s.activities.length + 1 := by
      unfold update_task
      split
      next hno =>
        exfalso
        simp only [Bool.and_eq_true, decide_eq_true_eq] at hno
        have : title = none := by tauto
        exact htitle this
      next hno =>
        simp only [insertActivity, hdup, Bool.false_eq_true, if_false]
        refine ⟨trivial, ?_, ?_⟩
        · exact updateTaskRows_no_match _ _ _ hmiss
        · simp
    exact key

/-- C2 witness: the missing-id behaviour applied to the empty store and the
absent id `ghost`. -/
theorem missing_task_id_behavior_witness :
    update_task_status emptyStore "ghost" "done" none "agent" "T" = (false, emptyStore) ∧
    (resolve_blocker emptyStore "ghost" "agent" "T").2.tasks = emptyStore.tasks ∧
    (update_task emptyStore "ghost" (some "t2") none none none "agent" "T").1 = true := by
  have h := missing_task_id_behavior emptyStore "ghost" "done" "r" "agent" "T"
    none (some "t2") none none none (by decide)
  exact ⟨h.1, (h.2.2.2.1 (by decide)).2.1, (h.2.2.2.2 (by decide) (by decide)).1⟩

/-! ### C6: next-task suggestion -/

/-- C6: `suggested_next_task` is empty exactly when no unblocked todo
candidate exists among the first 20 todo tasks, and otherwise is one of those
candidates with minimal priority rank under P0 < P1 < P2 < P3 < none. -/
theorem suggested_next_task_spec (s : Store) :
    ((get_session_context s).suggested_next_task = none ↔ availableCandidates s = []) ∧
    ∀ t, (get_session_context s).suggested_next_task = some t →
      t ∈ availableCandidates s ∧ ∀ u ∈ availableCandidates s,
        priorityRank t.epic_priority ≤ priorityRank u.epic_priority := by
  have hsug : (get_session_context s).suggested_next_task =
      (if (todoCandidates s).isEmpty then none
       else if (availableCandidates s).isEmpty then none
       else (sortLe (fun a b =>
         decide (priorityRank a.epic_priority ≤ priorityRank b.epic_priority))
         (availableCandidates s)).head?) := rfl
  by_cases h1 : (todoCandidates s).isEmpty = true
  · have he : availableCandidates s = [] := by
      unfold availableCandidates
      rw [List.isEmpty_iff.mp h1]
      rfl
    constructor
    · rw [hsug, if_pos h1]
      simp [he]
    · intro t ht
      rw [hsug, if_pos h1] at ht
      cases ht
  · by_cases h2 : (availableCandidates s).isEmpty = true
    · constructor
      · rw [hsug, if_neg h1, if_pos h2]
        simp [List.isEmpty_iff.mp h2]
      · intro t ht
        rw [hsug, if_neg h1, if_pos h2] at ht
        cases ht
    · cases hsort : sortLe (fun a b =>
          decide (priorityRank a.epic_priority ≤ priorityRank b.epic_priority))
          (availableCandidates s) with
      | nil =>
        exfalso
        have hlen := @length_sortLe _ (fun a b =>
          decide (priorityRank a.epic_priority ≤ priorityRank b.epic_priority))
          (availableCandidates s)
        rw [hsort] at hlen
        have : availableCandidates s = [] := List.length_eq_zero.mp hlen.symm
        rw [this] at h2
        exact h2 rfl
      | cons x rest =>
        have hmin := sortLe_head_min (fun t => priorityRank t.epic_priority)
          (availableCandidates s) x rest hsort
        constructor
        · rw [hsug, if_neg h1, if_neg h2, hsort]
          constructor
          · intro hx
            cases hx
          · intro hx
            rw [hx] at h2
            exact absurd rfl h2
        · intro t ht
          rw [hsug, if_neg h1, if_neg h2, hsort] at ht
          simp only [List.head?_cons, Option.some.injEq] at ht
          rw [← ht]
          exact hmin

/-- C6 witness: in the three-task P0/P1/P2 store the suggestion is the P0
task `a0`, which is an available candidate of minimal rank. -/
theorem suggested_next_task_witness :
    (get_session_context priorityStore).suggested_next_task =
      some { id := "a0", story_id := some "s0", title := "A", story_title := some "S0",
             epic_id := some "e0", epic_priority := some "P0" } ∧
    ({ id := "a0", story_id := some "s0", title := "A", story_title := some "S0",
       epic_id := some "e0", epic_priority := some "P0" } : JTask) ∈
      availableCandidates priorityStore ∧
    priorityRank (some "P0") ≤
      priorityRank ({ id := "a2", story_id := some "s2", title := "C",
                      story_title := some "S2", epic_id := some "e2",
                      epic_priority := some "P2" } : JTask).epic_priority := by
  have h := (suggested_next_task_spec priorityStore).2
    { id := "a0", story_id := some "s0", title := "A", story_title := some "S0",
      epic_id := some "e0", epic_priority := some "P0" } (by decide)
  exact ⟨by decide, h.1,
    h.2 { id := "a2", story_id := some "s2", title := "C", story_title := some "S2",
          epic_id := some "e2", epic_priority := some "P2" } (by decide)⟩

/-! ### C10: activity summarization, and C7: the 1000-row window of get_task -/

/-- C10: with fewer than 5 activity rows `summarize_task_activity` returns no
summary and leaves the store untouched; with 5 or more it returns the summary
text, which contains the `By type:` count-by-type section, and stores that
text in the task's `activity_summary` field. -/
theorem summarize_task_activity_spec (s : Store) (tid now : String) :
    ((summaryRows s tid).length < 5 →
      summarize_task_activity s tid false 5 now = (none, s)) ∧
    (5 ≤ (summaryRows s tid).length →
      (summarize_task_activity s tid false 5 now).1 = some (summaryText s tid now) ∧
      (∃ pre post, summaryText s tid now =
        String.intercalate "\n" (pre ++ "By type:" :: post)) ∧
      ((∃ t0 ∈ s.tasks, t0.id = tid) →
        ∃ t ∈ (summarize_task_activity s tid false 5 now).2.tasks,
          t.id = tid ∧ t.activity_summary = some (summaryText s tid now))) := by
  constructor
  · intro hlt
    simp only [summarize_task_activity, if_pos hlt]
  · intro hge
    have hnot : ¬((summaryRows s tid).length < 5) := by omega
    have hfst : (summarize_task_activity s tid false 5 now).1 =
        some (summaryText s tid now) := by
      simp only [summarize_task_activity, if_neg hnot, Bool.false_and, if_false,
        Bool.false_eq_true]
    have htasks : (summarize_task_activity s tid false 5 now).2.tasks =
        updateTaskRows s.tasks tid (fun t =>
          { t with activity_summary := some (summaryText s tid now),
                   updated_at := some now }) := by
      simp only [summarize_task_activity, if_neg hnot, Bool.false_and, if_false,
        Bool.false_eq_true]
    refine ⟨hfst, ?_, ?_⟩
    · refine ⟨["Activity summary generated at " ++ now.take 10,
        "Total entries: " ++ toString (summaryRows s tid).length, ""],
        typeCountLines s tid ++ statusHistoryLines s tid ++ recentNoteLines s tid, ?_⟩
      unfold summaryText summaryLines
      simp [List.append_assoc]
    · rintro ⟨t0, h0, hid⟩
      have hbeq : (t0.id == tid) = true := by simp [hid]
      refine ⟨{ t0 with activity_summary := some (summaryText s tid now)
                        updated_at := some now }, ?_, hid, rfl⟩
      rw [htasks]
      have hm := List.mem_map_of_mem (fun t =>
        if t.id == tid then
          ({ t with activity_summary := some (summaryText s tid now)
                    updated_at := some now } : TaskRow)
        else t) h0
      simpa [hbeq, updateTaskRows] using hm

/-- C10 witness: the five-activity task `w` is summarized (and the summary
stored), while the zero-activity id `nope` yields the insufficient result
with the store unchanged. -/
theorem summarize_task_activity_spec_witness :
    (summarize_task_activity activityStore "w" false 5 "2024-06-01T12:00:00").1 =
      some (summaryText activityStore "w" "2024-06-01T12:00:00") ∧
    summarize_task_activity activityStore "nope" false 5 "2024-06-01T12:00:00" =
      (none, activityStore) :=
  ⟨((summarize_task_activity_spec activityStore "w" "2024-06-01T12:00:00").2
      (by decide)).1,
   (summarize_task_activity_spec activityStore "nope" "2024-06-01T12:00:00").1
      (by decide)⟩

set_option maxRecDepth 100000 in
/-- C7 (code bug): in a store of 1001 tasks whose only in-progress task sorts
last, `get_next_task` returns `none` even though an in-progress task exists,
because `get_task` scans only the first 1000 rows despite its comment
"Get all to find by ID". -/
theorem get_next_task_thousand_limit_bug :
    bigStore.tasks.length = 1001 ∧
    ({ id := "zz", title := "Z", status := "in_progress" } : TaskRow) ∈ bigStore.tasks ∧
    get_next_task bigStore = none := by
  refine ⟨?_, ?_, ?_⟩
  · simp [bigStore, bigTasks]
  · exact List.mem_append_right _ (List.mem_singleton.mpr rfl)
  · decide

end Ohno
